import Mathlib

/-!
Verification development for the Priestley-Taylor potential-evapotranspiration
module (src/PriestlyTaylorET.py).

Modelling conventions.  The host arithmetic (Python floats / numpy float64)
is idealised as the real numbers: the properties examined here do not depend
on rounding or overflow, only on exact arithmetic and on the module's own
control flow.  Where the host arithmetic leaves the reals we track it
explicitly:

* `Option ℝ` models a possibly non-finite float: `none` stands for the NaN or
  ±inf that numpy float division produces at a zero denominator (numpy scalar
  division emits a warning, not an exception, and the non-finite value flows
  on through the pipeline).
* `Except String α` models Python control flow that can raise: pure-Python
  float division by zero raises `ZeroDivisionError`, and indexing a 0-d numpy
  array (`np.transpose(Ra)[0]` when `Ra` is a scalar) raises `IndexError`.

Division on ℝ itself (`x / 0 = 0`) is only ever relied on at points the
theorems' hypotheses exclude.
-/

namespace PriestlyTaylorET

noncomputable section

/-- Source lines 17-30, `calculate_net_radiation(albedo, Rs, C, epsilon, T_k)`:
with `o = 4.89*10**-9`, returns `Rn = (1-albedo)*Rs - C*epsilon*o*T_k**4`. -/
def calculate_net_radiation (albedo Rs C epsilon T_k : ℝ) : ℝ :=
  (1 - albedo) * Rs - C * epsilon * (4.89e-9) * T_k ^ 4

/-- Source lines 48-57, `calculate_Delta(T)`:
`Delta = 4098*(0.6108*np.exp((17.27*T)/(T+237.3)))/(T+237.3)**2`.
At `T = -237.3` the inner pure-float division raises `ZeroDivisionError` in the
source; the orchestrator `PET` below guards that point explicitly. -/
def calculate_Delta (T : ℝ) : ℝ :=
  4098 * (0.6108 * Real.exp ((17.27 * T) / (T + 237.3))) / (T + 237.3) ^ 2

/-- Source lines 60-72, `calculate_Bowen(gamma, T2, T1, e2, e1)`:
`gamma*((T2-T1)/(e2-e1))`, the value of the division when `e2 - e1 ≠ 0`. -/
def calculate_Bowen (gamma T2 T1 e2 e1 : ℝ) : ℝ :=
  gamma * ((T2 - T1) / (e2 - e1))

/-- Source lines 60-72 in the host arithmetic: the vapor pressures `e2`, `e1`
are numpy float64 scalars in the pipeline, so when `e2 - e1 = 0` the division
`(T2-T1)/(e2-e1)` yields NaN (0/0) or ±inf, a non-finite value modelled as
`none`; otherwise the finite real value of `calculate_Bowen`. -/
def calculate_BowenN (gamma T2 T1 e2 e1 : ℝ) : Option ℝ :=
  if e2 - e1 = 0 then none else some (calculate_Bowen gamma T2 T1 e2 e1)

/-- Source lines 75-84, `calculate_alpha(Delta, gamma, beta)`:
`(Delta+gamma)/(Delta*(1+beta))`. -/
def calculate_alpha (Delta gamma beta : ℝ) : ℝ :=
  (Delta + gamma) / (Delta * (1 + beta))

/-- Source lines 75-84 in the host arithmetic: a zero denominator
`Delta*(1+beta)` yields a non-finite value, modelled as `none`. -/
def calculate_alphaN (Delta gamma beta : ℝ) : Option ℝ :=
  if Delta * (1 + beta) = 0 then none else some (calculate_alpha Delta gamma beta)

/-- Source lines 87-95, `psychrometric_constant(P, lam)`: `0.00163*P/lam`. -/
def psychrometric_constant (P lam : ℝ) : ℝ :=
  0.00163 * P / lam

/-- Source lines 98-106, `calculate_vapor_pressure(T)`:
`e = 0.6108*np.exp(17.27*T/(237.3+T))`.  At `T = -237.3` the source's
pure-float division raises `ZeroDivisionError`; `PET` guards that point. -/
def calculate_vapor_pressure (T : ℝ) : ℝ :=
  0.6108 * Real.exp (17.27 * T / (237.3 + T))

/-- Source lines 109-119, `calculate_actual_vapor_pressure(T, RH)`:
`es = calculate_vapor_pressure(T); e = RH*es/100`. -/
def calculate_actual_vapor_pressure (T RH : ℝ) : ℝ :=
  RH * calculate_vapor_pressure T / 100

/-- Source lines 122-132, `Priestley_Taylor(alpha, Delta, gamma, Rn)`:
`alpha*((Delta)/(Delta+gamma))*Rn`. -/
def Priestley_Taylor (alpha Delta gamma Rn : ℝ) : ℝ :=
  alpha * (Delta / (Delta + gamma)) * Rn

/-- Source lines 134-141, `net_Emissivity(T)`:
`0.261*np.exp(-7.77*10**-4*T**2)-0.02`. -/
def net_Emissivity (T : ℝ) : ℝ :=
  0.261 * Real.exp (-(7.77e-4) * T ^ 2) - 0.02

/-- Source line 168, the orchestrator's local `T_k = air_T - 273.15`. -/
def PET_T_k (air_T : ℝ) : ℝ := air_T - 273.15

/-- Source line 169, the orchestrator's local `epsilon = net_Emissivity(air_T)`:
the argument passed is `air_T` itself, not the local `T_k`. -/
def PET_epsilon (air_T : ℝ) : ℝ := net_Emissivity air_T

/-- Source line 170 with the cloudiness value `C` abstracted:
`Rn = calculate_net_radiation(albedo, Rs, C, epsilon, T_k)` with the locals
`epsilon` (line 169) and `T_k` (line 168). -/
def PET_Rn (albedo Rs C air_T : ℝ) : ℝ :=
  calculate_net_radiation albedo Rs C (PET_epsilon air_T) (PET_T_k air_T)

/-- Models one position of `np.divide(x, d, out=np.zeros_like(..), where=d!=0)`:
the quotient where the divisor is nonzero, and the untouched `out` value 0
where the divisor is zero. -/
def guardedDiv (x d : ℝ) : ℝ := if d = 0 then 0 else x / d

/-- Models `np.transpose(Ra)[0]` for a 2-D array `Ra`: row 0 of the transpose
is the first column of `Ra`; `none` models the IndexError raised when a row is
empty (so the transpose has no row 0). -/
def transposeRow0 : List (List ℝ) → Option (List ℝ)
  | [] => some []
  | row :: rows =>
      match row.head?, transposeRow0 rows with
      | some x, some xs => some (x :: xs)
      | _, _ => none

/-- Source lines 33-45, `calculate_cloudiness(Rs, Ra, ac, bc)` for 1-D inputs:
`np.transpose` leaves a 1-D `Ra` unchanged, so line 43 rebinds `Ra` to the
single scalar `Ra[0]` (IndexError — `none` — on an empty array); line 44's
`np.divide(Rs, Ra, out=np.zeros_like(Rs), where=Ra!=0)` then divides every
position of `Rs` by that one scalar under the scalar guard `Ra[0] != 0`
(`guardedDiv`), and line 45 returns `ac*R+bc` elementwise. -/
def calculate_cloudiness (Rs Ra : List ℝ) (ac bc : ℝ) : Option (List ℝ) :=
  match Ra.head? with
  | none => none
  | some r0 => some (Rs.map fun x => ac * guardedDiv x r0 + bc)

/-- Source lines 33-45 for a 1-D `Rs` and a 2-D `Ra`: line 43 rebinds `Ra` to
`np.transpose(Ra)[0]`, the first column of the input; line 44 divides
elementwise under the per-position guard; a length mismatch between `Rs` and
that column is a numpy broadcast error (`none`). -/
def calculate_cloudiness2 (Rs : List ℝ) (Ra : List (List ℝ)) (ac bc : ℝ) :
    Option (List ℝ) :=
  match transposeRow0 Ra with
  | none => none
  | some col =>
      if Rs.length = col.length then
        some ((Rs.zip col).map fun p => ac * guardedDiv p.1 p.2 + bc)
      else none

/-- Source line 167 for scalar arguments:
`calculate_cloudiness(Rs, Ra, ac=0.72, bc=0.28)` where `Rs` and `Ra` are
scalars.  Line 43, `np.transpose(Ra)[0]`, wraps the scalar as a 0-d array and
indexes it, which raises IndexError: the scalar call never returns a value. -/
def calculate_cloudiness_scalar (Rs Ra ac bc : ℝ) : Except String ℝ :=
  Except.error "IndexError"

/-- Source lines 144-172, `PET(air_T, fuel_T, elevation, RH, fuel_moist, Rs,
Ra, albedo)` for scalar (0-d) arguments, in source evaluation order:
`P` (line 159) and `lam` (160) are pure Python floats;
`calculate_Delta(air_T)` (161) raises ZeroDivisionError at `air_T = -237.3`
(its inner division is pure-float), `psychrometric_constant(P, lam)` (162)
raises at `lam = 0`, and `calculate_actual_vapor_pressure(fuel_T, ..)` (164)
raises at `fuel_T = -237.3`; those raises appear here as guards in source
order.  `beta` (165) and `alpha` (166) are numpy scalars that can be
non-finite (`Option ℝ`); the cloudiness call (167) raises IndexError on every
scalar `Ra`; lines 168-171 combine `epsilon`, `T_k`, `Rn` (`PET_Rn`) and the
final Priestley-Taylor value. -/
def PET (air_T fuel_T elevation RH fuel_moist Rs Ra albedo : ℝ) :
    Except String (Option ℝ) :=
  let P := 101.3 - 0.01055 * elevation
  let lam := 2.501 - 0.002361 * air_T
  if air_T + 237.3 = 0 then Except.error "ZeroDivisionError"
  else if lam = 0 then Except.error "ZeroDivisionError"
  else if fuel_T + 237.3 = 0 then Except.error "ZeroDivisionError"
  else
    let Delta := calculate_Delta air_T
    let gamma := psychrometric_constant P lam
    let air_vape := calculate_actual_vapor_pressure air_T RH
    let fuel_vape := calculate_actual_vapor_pressure fuel_T fuel_moist
    let beta := calculate_BowenN gamma air_T fuel_T air_vape fuel_vape
    let alpha := beta.bind (calculate_alphaN Delta gamma)
    (calculate_cloudiness_scalar Rs Ra 0.72 0.28).bind fun C =>
      Except.ok (alpha.map fun a =>
        Priestley_Taylor a Delta gamma (PET_Rn albedo Rs C air_T))

/-- Source lines 174-200, `graph_ET_results(date_time, evapotranspiration,
title, ylabel, xlabel, verbose)`.  A pandas Timestamp is modelled as the pair
of its calendar date (an integer day ordinal) and its time of day (seconds);
`datetime.datetime.date` is the first projection.  Lines 187-190 collect the
dates of all timestamps and form `sorted(list(set(dates)))`, modelled as
`Finset.sort` of the dates' finset; line 191 converts that deduplicated list
to the plot axis `dates_plot`.  When `verbose` (lines 192-199),
`plt.plot_date(dates_plot, np.asarray(evapotranspiration), ...)` on line 194
raises ValueError unless its x and y arguments have the same first dimension,
i.e. unless the deduplicated date axis and the full ET series have equal
length; the remaining plt calls of the block only render.  Line 200 returns
the sorted deduplicated dates, so the value is only reached under `verbose`
when the lengths matched.  The title/label strings are presentation-only and
omitted. -/
def graph_ET_results (date_time : List (ℤ × ℕ)) (evapotranspiration : List ℝ)
    (verbose : Bool) : Except String (List ℤ) :=
  let dates := (date_time.map Prod.fst).toFinset.sort (· ≤ ·)
  match verbose with
  | true =>
      if dates.length = evapotranspiration.length then Except.ok dates
      else Except.error "ValueError"
  | false => Except.ok dates

end

/-- C6: relative humidity of 100 percent yields the saturation vapor pressure
exactly: `calculate_actual_vapor_pressure T 100 = calculate_vapor_pressure T`
for every temperature `T`. -/
theorem C6_actual_vapor_at_100 (T : ℝ) :
    calculate_actual_vapor_pressure T 100 = calculate_vapor_pressure T := by
  unfold calculate_actual_vapor_pressure
  ring

/-- C7: `Priestley_Taylor` is linear in its net-radiation argument: doubling
`Rn` doubles the returned evapotranspiration for any fixed `alpha`, `Delta`,
`gamma`. -/
theorem C7_PT_linear_in_Rn (alpha Delta gamma Rn : ℝ) :
    Priestley_Taylor alpha Delta gamma (2 * Rn) =
      2 * Priestley_Taylor alpha Delta gamma Rn := by
  unfold Priestley_Taylor
  ring

/-- C9: the saturation vapor pressure is strictly positive at every
temperature above the singularity, `T > -237.3`. -/
theorem C9_vapor_pressure_pos (T : ℝ) (h : T > -237.3) :
    0 < calculate_vapor_pressure T := by
  unfold calculate_vapor_pressure
  positivity

/-- Witness for C9 at the concrete temperature `T = 0`. -/
theorem C9_vapor_pressure_pos_witness :
    0 < calculate_vapor_pressure 0 :=
  C9_vapor_pressure_pos 0 (by norm_num)

/-- C8: with `albedo = 1` the shortwave term `(1-albedo)*Rs` vanishes, and for
every positive `epsilon`, `C` and `T_k` the returned net radiation is at most
zero. -/
theorem C8_albedo_one_Rn_nonpos (Rs C epsilon T_k : ℝ)
    (hC : 0 < C) (he : 0 < epsilon) (hT : 0 < T_k) :
    (1 - (1 : ℝ)) * Rs = 0 ∧ calculate_net_radiation 1 Rs C epsilon T_k ≤ 0 := by
  constructor
  · ring
  · unfold calculate_net_radiation
    have hpos : 0 < C * epsilon * (4.89e-9 : ℝ) * T_k ^ 4 := by positivity
    linarith

/-- Witness for C8 at the concrete input `Rs = 20`, `C = 1`, `epsilon = 1`,
`T_k = 300`. -/
theorem C8_albedo_one_Rn_nonpos_witness :
    (1 - (1 : ℝ)) * 20 = 0 ∧ calculate_net_radiation 1 20 1 1 300 ≤ 0 :=
  C8_albedo_one_Rn_nonpos 20 1 1 300 (by norm_num) (by norm_num) (by norm_num)

/-- Helper: `net_Emissivity` takes different values at the orchestrator's two
candidate arguments `air_T = 25` and `T_k = 25 - 273.15`, because `Real.exp`
is injective and the squared arguments differ. -/
theorem net_Emissivity_25_ne :
    net_Emissivity 25 ≠ net_Emissivity (25 - 273.15) := by
  unfold net_Emissivity
  intro h
  have h2 : Real.exp (-(7.77e-4) * (25 : ℝ) ^ 2) =
      Real.exp (-(7.77e-4) * ((25 : ℝ) - 273.15) ^ 2) := by linarith
  rw [Real.exp_eq_exp] at h2
  norm_num at h2

/-- C3 fails on the code: the orchestrator's `epsilon` (line 169) is
`net_Emissivity air_T`, which at the concrete input `air_T = 25` differs from
`net_Emissivity T_k` — so `T_k` is not the value passed to `net_Emissivity`. -/
theorem C3_cex : PET_epsilon 25 ≠ net_Emissivity (PET_T_k 25) := by
  have h := net_Emissivity_25_ne
  simpa [PET_epsilon, PET_T_k] using h

/-- C3 amended: the orchestrator computes `T_k = air_T - 273.15` and passes it
to `calculate_net_radiation` only; `net_Emissivity` receives `air_T` itself,
which (at `air_T = 25`) is not the same as receiving `T_k`. -/
theorem C3_T_k_dataflow (air_T albedo Rs C : ℝ) :
    PET_T_k air_T = air_T - 273.15 ∧
    PET_epsilon air_T = net_Emissivity air_T ∧
    PET_Rn albedo Rs C air_T =
      calculate_net_radiation albedo Rs C (net_Emissivity air_T) (air_T - 273.15) ∧
    PET_epsilon 25 ≠ net_Emissivity (PET_T_k 25) :=
  ⟨rfl, rfl, rfl, by simpa [PET_epsilon, PET_T_k] using net_Emissivity_25_ne⟩

/-- Helper: on a 2-D array whose rows are all nonempty, `np.transpose(Ra)[0]`
is exactly the list of the rows' first entries (the first column). -/
theorem transposeRow0_eq_map (Ra : List (List ℝ)) (h : ∀ r ∈ Ra, r ≠ []) :
    transposeRow0 Ra = some (Ra.map fun r => r.headD 0) := by
  induction Ra with
  | nil => rfl
  | cons row rows ih =>
      cases row with
      | nil => exact absurd rfl (h [] (by simp))
      | cons a t =>
          have hrec := ih fun r hr => h r (List.mem_cons_of_mem _ hr)
          simp [transposeRow0, hrec]

/-- C2 fails on the code: at the matching-shape 1-D input `Rs = [1, 1]`,
`Ra = [1, 0]` (with `ac = 0.72`, `bc = 0.28`), position 1 has `Ra = 0`, so the
claim demands the output `[0.72*(1/1)+0.28, 0.28] = [1, 0.28]`; the code
divides every position by `Ra[0] = 1` and returns `[1, 1]` instead. -/
theorem C2_cex :
    calculate_cloudiness [1, 1] [1, 0] 0.72 0.28 = some [1, 1] ∧
    calculate_cloudiness [1, 1] [1, 0] 0.72 0.28 ≠ some [1, 0.28] := by
  constructor
  · simp [calculate_cloudiness, guardedDiv]
    norm_num
  · simp [calculate_cloudiness, guardedDiv]
    norm_num

/-- C2 amended: for a nonempty 1-D `Ra` the call never faults, but the divisor
and the zero guard are `Ra[0]` alone: when `Ra[0] = 0` every position returns
`bc` (regardless of `Rs` and of the other entries of `Ra`), and when
`Ra[0] ≠ 0` every position `i` returns `ac*(Rs[i]/Ra[0]) + bc`. -/
theorem C2_guard_uses_first_element (Rs rest : List ℝ) (r0 ac bc : ℝ) :
    (calculate_cloudiness Rs (r0 :: rest) ac bc).isSome = true ∧
    (r0 = 0 → calculate_cloudiness Rs (r0 :: rest) ac bc =
        some (Rs.map fun x => bc)) ∧
    (r0 ≠ 0 → calculate_cloudiness Rs (r0 :: rest) ac bc =
        some (Rs.map fun x => ac * (x / r0) + bc)) := by
  refine ⟨rfl, fun h0 => ?_, fun h0 => ?_⟩
  · simp [calculate_cloudiness, guardedDiv, h0]
  · simp [calculate_cloudiness, guardedDiv, h0]

/-- C5: line 43 replaces `Ra` by the first row of its transpose before
dividing.  For a nonempty 1-D `Ra` the single element `Ra[0]` is the divisor
and guard for every position of `Rs`; the result is not the elementwise
quotient (witnessed at `Rs = [1, 1]`, `Ra = [1, 2]`); and for a 2-D `Ra` with
nonempty rows only the first column enters the elementwise division. -/
theorem C5_transpose_first_row :
    (∀ (Rs rest : List ℝ) (r0 ac bc : ℝ),
        calculate_cloudiness Rs (r0 :: rest) ac bc =
          some (Rs.map fun x => ac * guardedDiv x r0 + bc)) ∧
    (calculate_cloudiness [1, 1] [1, 2] 0.72 0.28 ≠
        some [0.72 * (1 / 1) + 0.28, 0.72 * (1 / 2) + 0.28]) ∧
    (∀ (Rs : List ℝ) (Ra : List (List ℝ)) (ac bc : ℝ),
        (∀ r ∈ Ra, r ≠ []) → Rs.length = Ra.length →
        calculate_cloudiness2 Rs Ra ac bc =
          some ((Rs.zip (Ra.map fun r => r.headD 0)).map
            fun p => ac * guardedDiv p.1 p.2 + bc)) := by
  refine ⟨fun Rs rest r0 ac bc => rfl, ?_, ?_⟩
  · simp [calculate_cloudiness, guardedDiv]
    norm_num
  · intro Rs Ra ac bc h hlen
    rw [calculate_cloudiness2, transposeRow0_eq_map Ra h]
    simp [hlen]

/-- C1 fails on the code: at the spec's end-to-end input
`(25, 25, 0, 50, 50, 20, 30, 0.2)` the Bowen denominator `e2 - e1` is 0
together with the numerator, so `beta` is the non-finite 0/0 (NaN), not 0; and
the scalar call faults with IndexError at the cloudiness step instead of
returning a finite ET value. -/
theorem C1_cex :
    calculate_BowenN
        (psychrometric_constant (101.3 - 0.01055 * 0) (2.501 - 0.002361 * 25))
        25 25 (calculate_actual_vapor_pressure 25 50)
        (calculate_actual_vapor_pressure 25 50) = none ∧
    PET 25 25 0 50 50 20 30 0.2 = Except.error "IndexError" := by
  constructor
  · simp [calculate_BowenN]
  · simp [PET, calculate_cloudiness_scalar, Except.bind]
    norm_num

/-- C1 amended: whenever `air_T = fuel_T` and `RH = fuel_moist` (away from the
pipeline's ZeroDivisionError points), the Bowen denominator vanishes together
with its numerator, so `beta` is the non-finite 0/0 (NaN) rather than 0, and
the scalar PET call raises IndexError at the cloudiness step rather than
returning a finite ET value. -/
theorem C1_zero_difference_path
    (air_T fuel_T elevation RH fuel_moist Rs Ra albedo : ℝ)
    (hT : air_T = fuel_T) (hRH : RH = fuel_moist)
    (h1 : air_T + 237.3 ≠ 0) (h2 : 2.501 - 0.002361 * air_T ≠ 0) :
    calculate_BowenN
        (psychrometric_constant (101.3 - 0.01055 * elevation)
          (2.501 - 0.002361 * air_T))
        air_T fuel_T (calculate_actual_vapor_pressure air_T RH)
        (calculate_actual_vapor_pressure fuel_T fuel_moist) = none ∧
    PET air_T fuel_T elevation RH fuel_moist Rs Ra albedo =
      Except.error "IndexError" := by
  subst hT hRH
  constructor
  · simp [calculate_BowenN]
  · simp [PET, calculate_cloudiness_scalar, Except.bind, h1, h2]

/-- Witness for C1 amended at the concrete zero-difference input
`(10, 10, 50, 80, 80, 5, 7, 0.1)`. -/
theorem C1_zero_difference_path_witness :
    calculate_BowenN
        (psychrometric_constant (101.3 - 0.01055 * 50) (2.501 - 0.002361 * 10))
        10 10 (calculate_actual_vapor_pressure 10 80)
        (calculate_actual_vapor_pressure 10 80) = none ∧
    PET 10 10 50 80 80 5 7 0.1 = Except.error "IndexError" :=
  C1_zero_difference_path 10 10 50 80 80 5 7 0.1 rfl rfl
    (by norm_num) (by norm_num)

/-- C4: the docstrings say PET "returns value or list" elementwise over its
inputs, but every all-scalar call raises IndexError inside
`calculate_cloudiness` (`np.transpose(Ra)[0]` indexes a 0-d array); the code
is evaluated here at the concrete all-scalar input
`(10, 20, 100, 40, 30, 15, 25, 0.3)`. -/
theorem C4_scalar_call_raises :
    PET 10 20 100 40 30 15 25 0.3 = Except.error "IndexError" := by
  simp [PET, calculate_cloudiness_scalar, Except.bind]
  norm_num

/-- Helper: sorting the two-element finset of day ordinals 0 and 1 yields the
list `[0, 1]`. -/
theorem sort_pair_01 :
    Finset.sort (· ≤ ·) ({0, 1} : Finset ℤ) = [0, 1] := by
  rw [Finset.sort_insert, Finset.sort_singleton]
  · intro b hb
    simp only [Finset.mem_singleton] at hb
    omega
  · simp

/-- C10 fails on the code: in the claim's own scenario — timestamps on
calendar days 0, 0 and 1 with the three corresponding ET values — rendering
does change the outcome.  `plt.plot_date` pairs the deduplicated 2-date axis
with the 3-value ET series and raises ValueError, so the verbose call returns
nothing, while the non-verbose call returns the 2 sorted distinct dates. -/
theorem C10_cex :
    graph_ET_results [(0, 0), (0, 1), (1, 0)] [1, 2, 3] true =
      Except.error "ValueError" ∧
    graph_ET_results [(0, 0), (0, 1), (1, 0)] [1, 2, 3] false =
      Except.ok [0, 1] := by
  constructor
  · simp [graph_ET_results, sort_pair_01]
  · simp [graph_ET_results, sort_pair_01]

/-- C10 amended: the helper computes the distinct calendar dates of its input
timestamps sorted strictly ascending; with `verbose = false` (no rendering) it
returns exactly that list; with `verbose = true` it returns the same list when
the number of distinct dates equals the length of the ET series and raises
ValueError from the plotting call otherwise; and for two timestamps on one
calendar date plus one on another the computed date list has exactly 2
entries. -/
theorem C10_dates_dedup_sorted :
    (∀ (dt : List (ℤ × ℕ)) (ev : List ℝ),
        ∃ l : List ℤ, graph_ET_results dt ev false = Except.ok l ∧
          l.Sorted (· < ·) ∧ ∀ d : ℤ, d ∈ l ↔ d ∈ dt.map Prod.fst) ∧
    (∀ (dt : List (ℤ × ℕ)) (ev : List ℝ) (l : List ℤ),
        graph_ET_results dt ev false = Except.ok l →
        (l.length = ev.length → graph_ET_results dt ev true = Except.ok l) ∧
        (l.length ≠ ev.length →
          graph_ET_results dt ev true = Except.error "ValueError")) ∧
    (∀ (t1 t2 t3 : ℤ × ℕ) (ev : List ℝ) (l : List ℤ),
        t1.1 = t2.1 → t1.1 ≠ t3.1 →
        graph_ET_results [t1, t2, t3] ev false = Except.ok l →
        l.length = 2) := by
  refine ⟨fun dt ev => ⟨(dt.map Prod.fst).toFinset.sort (· ≤ ·), rfl,
      Finset.sort_sorted_lt _, fun d => ?_⟩,
    fun dt ev l h => ?_, fun t1 t2 t3 ev l h12 h13 h => ?_⟩
  · simp [Finset.mem_sort]
  · simp only [graph_ET_results, Except.ok.injEq] at h
    subst h
    constructor
    · intro hlen
      simp only [Finset.length_sort] at hlen
      simp [graph_ET_results, hlen]
    · intro hlen
      simp only [Finset.length_sort] at hlen
      simp [graph_ET_results, hlen]
  · simp only [graph_ET_results, Except.ok.injEq] at h
    subst h
    have h13' : t2.1 ≠ t3.1 := h12 ▸ h13
    simp [Finset.length_sort, List.toFinset_cons, h12, Finset.insert_idem]
    rw [Finset.card_insert_of_not_mem (by simp [h13'])]
    simp

/-- Witness for C10 amended, applying its deduplication clause at the three
concrete timestamps of `C10_cex` and the date list `[0, 1]` the non-verbose
call returns there. -/
theorem C10_dates_dedup_sorted_witness : ([0, 1] : List ℤ).length = 2 :=
  C10_dates_dedup_sorted.2.2 (0, 0) (0, 1) (1, 0) [1, 2, 3] [0, 1] rfl
    (by decide) (by simp [graph_ET_results, sort_pair_01])

end PriestlyTaylorET
